import Mathlib

/-!
Verification of the remindr repository's navigation and routing layer,
settings parsing, and startup file loading, against its specification.

The Rust sources are shallowly embedded:
- `Navigator` (crates/gpui-nav/src/navigator.rs): `Vec<AnyView>` becomes a
  `List V` over an opaque view type `V`; `Vec<&'static str>` becomes
  `List String`; `Vec::push` appends at the end and `Vec::pop` drops the
  last element, so Rust's top of stack is the list's last element.
- `Route`/`Routes` (crates/router/src): element-factory closures are
  identified by opaque `Nat` ids; a render pass returns the list of
  factory ids it invoked; `matchit` pattern matching is an abstract
  function from pattern and path to `Bool`, quantified in the theorems.
- Panics (`panic!`, `.expect`) are modelled as `Except.error` carrying the
  panic message; the Rust debug-build guard `cfg!(debug_assertions)` is an
  explicit `debug : Bool` argument.
- `serde_json::Value` becomes the inductive `Json` (numbers as `Int`,
  which suffices for the structures involved).
-/

set_option maxHeartbeats 1000000

namespace Remindr

/-- serde_json `Value`, shallowly embedded. Objects are association lists. -/
inductive Json : Type
  | null
  | bool (b : Bool)
  | num (n : Int)
  | str (s : String)
  | arr (elems : List Json)
  | obj (fields : List (String × Json))

/-- crates/gpui-nav/src/navigator.rs, `struct Navigator`: a stack of opaque
views (`Vec<AnyView>`) and a parallel history of screen ids
(`Vec<&'static str>`). The last list element is the top of the stack. -/
structure Navigator (V : Type) where
  stack : List V
  history : List String
deriving DecidableEq

/-- `Navigator::new`: both vectors empty. -/
def Navigator.new {V : Type} : Navigator V :=
  { stack := [], history := [] }

/-- `Navigator::push`: appends the screen's view to the stack and its id to
the history (`cx.new` creating the entity and `cx.notify` have no effect on
either vector and are not modelled). -/
def Navigator.push {V : Type} (n : Navigator V) (view : V) (screen_id : String) :
    Navigator V :=
  { stack := n.stack ++ [view], history := n.history ++ [screen_id] }

/-- `Navigator::pop`: if `stack.len() > 1`, removes the last element of both
vectors and returns `true`; otherwise leaves both unchanged and returns
`false`. `Vec::pop` on an empty vector is a no-op, matching `dropLast`. -/
def Navigator.pop {V : Type} (n : Navigator V) : Navigator V × Bool :=
  if 1 < n.stack.length then
    ({ stack := n.stack.dropLast, history := n.history.dropLast }, true)
  else
    (n, false)

/-- `Navigator::replace`: returns `false` on an empty stack; otherwise pops
the last element of both vectors, pushes the new screen, returns `true`. -/
def Navigator.replace {V : Type} (n : Navigator V) (view : V) (screen_id : String) :
    Navigator V × Bool :=
  if n.stack.isEmpty then
    (n, false)
  else
    (Navigator.push
      { stack := n.stack.dropLast, history := n.history.dropLast } view screen_id,
     true)

/-- `Navigator::clear_and_push`: clears both vectors, then pushes. -/
def Navigator.clear_and_push {V : Type} (_n : Navigator V) (view : V)
    (screen_id : String) : Navigator V :=
  Navigator.push { stack := [], history := [] } view screen_id

/-- One mutating operation of the `Navigator` API. -/
inductive NavOp (V : Type) : Type
  | push (view : V) (screen_id : String)
  | pop
  | replace (view : V) (screen_id : String)
  | clear_and_push (view : V) (screen_id : String)

/-- Applies one operation, discarding the boolean result where there is one. -/
def Navigator.applyOp {V : Type} (n : Navigator V) : NavOp V → Navigator V
  | .push v sid => n.push v sid
  | .pop => (n.pop).1
  | .replace v sid => (n.replace v sid).1
  | .clear_and_push v sid => n.clear_and_push v sid

/-- Runs a sequence of operations on a navigator created by `Navigator::new`. -/
def Navigator.runOps {V : Type} (ops : List (NavOp V)) : Navigator V :=
  ops.foldl Navigator.applyOp Navigator.new

/-- crates/gpui/src/app/states/settings_state.rs, `enum ThemeMode`. -/
inductive ThemeMode : Type
  | Light
  | Dark
  | System
deriving DecidableEq

/-- `ThemeMode::next`: Light → Dark → System → Light. -/
def ThemeMode.next : ThemeMode → ThemeMode
  | .Light => .Dark
  | .Dark => .System
  | .System => .Light

/-- Field lookup in a JSON object's association list (first match), as
serde sees the fields of a `serde_json::Map`. -/
def Json.getField (fields : List (String × Json)) (k : String) : Option Json :=
  (fields.find? (fun p => p.1 == k)).map (·.2)

/-- crates/remindr/src/domain/entities/settings/mod.rs (and the identical
crates/gpui copy), `struct LocalDatabase`. -/
structure LocalDatabase where
  name : String
  path : String
deriving DecidableEq

/-- Same module, `struct RemoteDatabase`. -/
structure RemoteDatabase where
  name : String
  url : String
deriving DecidableEq

/-- Same module, `enum DbContext` with
`#[serde(tag = "type", rename_all = "lowercase")]` and an
`#[serde(other)] Unknown` variant. -/
inductive DbContext : Type
  | Local (db : LocalDatabase)
  | Remote (db : RemoteDatabase)
  | Unknown
deriving DecidableEq

/-- serde deserialization of `LocalDatabase` from the fields of a JSON
object: `name` and `path` must both be present as JSON strings; unknown
extra fields are tolerated (serde's default). -/
def LocalDatabase.fromFields (fields : List (String × Json)) : Option LocalDatabase :=
  match Json.getField fields "name", Json.getField fields "path" with
  | some (.str n), some (.str p) => some { name := n, path := p }
  | _, _ => none

/-- serde deserialization of `RemoteDatabase` from the fields of a JSON
object: `name` and `url` must both be present as JSON strings. -/
def RemoteDatabase.fromFields (fields : List (String × Json)) : Option RemoteDatabase :=
  match Json.getField fields "name", Json.getField fields "url" with
  | some (.str n), some (.str u) => some { name := n, url := u }
  | _, _ => none

/-- `serde_json::from_value::<DbContext>` for the internally tagged enum:
the value must be a JSON object whose `type` field is a string; tags
`local` and `remote` select the corresponding variant, failing if its
fields do not deserialize; any other tag string selects the
`#[serde(other)]` variant `Unknown`; a non-object value or a missing or
non-string tag is a deserialization error (`none`). -/
def DbContext.from_value (v : Json) : Option DbContext :=
  match v with
  | .obj fields =>
    match Json.getField fields "type" with
    | some (.str t) =>
      if t = "local" then (LocalDatabase.fromFields fields).map DbContext.Local
      else if t = "remote" then (RemoteDatabase.fromFields fields).map DbContext.Remote
      else some DbContext.Unknown
    | _ => none
  | _ => none

/-- `DbContext::parse`: `from_value::<DbContext>(value).unwrap_or(DbContext::Unknown)`. -/
def DbContext.parse (value : Json) : DbContext :=
  (DbContext.from_value value).getD DbContext.Unknown

/-- src/entities/document_parser.rs, `DocumentParser::load_file`, with the
file system (`std::fs::read_to_string`, `none` = read error) and the JSON
parser (`serde_json::from_str::<Vec<Value>>`, `none` = parse error) as
explicit parameters. The two `.expect` panics, which abort the process, are
modelled as `Except.error` carrying the panic message; the Rust return type
`Vec<Value>` itself has no error variant. -/
def DocumentParser.load_file (read_to_string : String → Option String)
    (from_str : String → Option (List Json)) (value : String) :
    Except String (List Json) :=
  match read_to_string value with
  | none => .error "Failed to read demo.json"
  | some file_content =>
    match from_str file_content with
    | none => .error "Failed to parse JSON from demo.json"
    | some blocks => .ok blocks

/-- crates/router/src/route.rs, `struct Route`. Element factories
(`Box<dyn Fn(..) -> AnyElement>`) are identified by opaque `Nat` ids: in
Rust they are boxed closures that are stored without being invoked, and a
render pass below reports the ids it invokes. `layout` likewise stores an
opaque layout id. -/
structure Route where
  basename : String
  path : Option String
  element : Option Nat
  routes : List Route
  layout : Option Nat

/-- `Route::default` / `Route::new`: everything unset, empty basename. -/
def Route.new : Route :=
  { basename := "", path := none, element := none, routes := [], layout := none }

/-- `Route::path`: sets the path; it never panics and overwrites any
previous value, including the empty path installed by `index()`. -/
def Route.withPath (r : Route) (p : String) : Route :=
  { r with path := some p }

/-- `Route::element` with `debug = cfg!(debug_assertions)`: panics when a
layout is already set, otherwise stores the factory (without calling it). -/
def Route.withElement (r : Route) (debug : Bool) (f : Nat) : Except String Route :=
  if debug && r.layout.isSome then
    .error "Route element and layout cannot be set at the same time"
  else
    .ok { r with element := some f }

/-- `Route::layout` with `debug = cfg!(debug_assertions)`: panics when an
element is already set, otherwise stores the layout. -/
def Route.withLayout (r : Route) (debug : Bool) (l : Nat) : Except String Route :=
  if debug && r.element.isSome then
    .error "Route element and layout cannot be set at the same time"
  else
    .ok { r with layout := some l }

/-- `Route::index` with `debug = cfg!(debug_assertions)`: panics when a
path is already set, otherwise sets the empty path via `self.path("")`. -/
def Route.index (r : Route) (debug : Bool) : Except String Route :=
  if debug && r.path.isSome then
    .error "Route index and path cannot be set at the same time"
  else
    .ok (r.withPath "")

/-- `Route::child`: appends a child route (`SmallVec::push`). -/
def Route.child (r : Route) (c : Route) : Route :=
  { r with routes := r.routes ++ [c] }

/-- Rust `str::trim_end_matches('/')`: removes every trailing slash. -/
def trimEndSlashes (s : String) : String :=
  String.mk ((s.data.reverse.dropWhile (fun c => c == '/')).reverse)

/-- The combined path a route contributes under a basename, shared by
`build_route_map` and the layout branch of `Route::render`: the basename
is trimmed of trailing slashes, then joined with the route's own path when
one is set. -/
def Route.joinPath (p : Option String) (basename : String) : String :=
  match p with
  | some q => trimEndSlashes basename ++ "/" ++ q
  | none => trimEndSlashes basename

mutual
/-- `Route::build_route_map`: the patterns the route inserts into the
matchit router under the given basename. A route with an element
contributes exactly its own combined path (trailing slashes trimmed unless
the result is the root path) and its children are ignored; otherwise the
children's maps are merged under the combined path. -/
def Route.build_route_map (r : Route) (basename : String) : List String :=
  match r with
  | ⟨_, rpath, relement, rroutes, _⟩ =>
    let p := Route.joinPath rpath basename
    let p := if p ≠ "/" then trimEndSlashes p else p
    if relement.isSome then [p]
    else Route.buildList rroutes p

/-- The recursive merge over the child routes in `build_route_map`. -/
def Route.buildList (rs : List Route) (p : String) : List String :=
  match rs with
  | [] => []
  | c :: rest => Route.build_route_map c p ++ Route.buildList rest p
end

/-- `matchit::Router::at` on a merged router: it resolves a path exactly
when one of the inserted patterns matches it, for an abstract pattern
matcher `m` (first argument the pattern, second the path). -/
def routerAt (m : String → String → Bool) (patterns : List String)
    (path : String) : Bool :=
  patterns.any (fun p => m p path)

/-- `Route::in_pattern`: whether the route's own pattern map resolves the
path. -/
def Route.in_pattern (m : String → String → Bool) (r : Route)
    (basename path : String) : Bool :=
  routerAt m (r.build_route_map basename) path

mutual
/-- `Route::render` (the `RenderOnce` impl), instrumented: returns the
list of element-factory ids the pass invokes. The basename installed via
`Route::basename` just before rendering is passed as an argument. An
element route invokes its stored factory; a layout route renders the first
child whose pattern map matches the pathname (the `find` of the layout
branch, fused here with the recursive render of the found child); a route
with neither renders `Empty` and invokes nothing. -/
def Route.render (m : String → String → Bool) (pathname : String) (r : Route)
    (basename : String) : List Nat :=
  match r with
  | ⟨_, rpath, relement, rroutes, rlayout⟩ =>
    match relement with
    | some f => [f]
    | none =>
      match rlayout with
      | some _ =>
        Route.renderList m pathname rroutes (Route.joinPath rpath basename)
      | none => []

/-- The layout branch's `find`-then-render over the children: renders the
first child whose pattern map matches the pathname, nothing otherwise. -/
def Route.renderList (m : String → String → Bool) (pathname : String)
    (cs : List Route) (bn : String) : List Nat :=
  match cs with
  | [] => []
  | c :: rest =>
    if Route.in_pattern m c bn pathname then Route.render m pathname c bn
    else Route.renderList m pathname rest bn
end

/-- crates/router/src/routes.rs, `struct Routes`. -/
structure Routes where
  basename : String
  routes : List Route

/-- `Routes::new`: root basename, no children. -/
def Routes.new : Routes :=
  { basename := "/", routes := [] }

/-- `Routes::child`: appends a child route. -/
def Routes.child (rs : Routes) (c : Route) : Routes :=
  { rs with routes := rs.routes ++ [c] }

/-- `Routes::render` (the `RenderOnce` impl), instrumented like
`Route.render`: merges the children's pattern maps; when the merged router
resolves the current pathname of the global `RouterState`, renders the
first child whose own map matches it (the `find`, fused with the render of
the found route); otherwise renders `Empty`. Returns the invoked
element-factory ids. -/
def Routes.render (m : String → String → Bool) (pathname : String)
    (rs : Routes) : List Nat :=
  if routerAt m (Route.buildList rs.routes rs.basename) pathname then
    Route.renderList m pathname rs.routes rs.basename
  else []

/-- `d` is a route of the tree rooted at `r`: `r` itself or a route of one
of its children's trees. -/
inductive Route.Sub : Route → Route → Prop
  | refl (r : Route) : Route.Sub r r
  | step {d c r : Route} : c ∈ r.routes → Route.Sub d c → Route.Sub d r

/- ===================== theorems: navigator ===================== -/

theorem Navigator.applyOp_balanced {V : Type} (n : Navigator V) (op : NavOp V)
    (h : n.stack.length = n.history.length) :
    (n.applyOp op).stack.length = (n.applyOp op).history.length := by
  cases op with
  | push v sid => simp [applyOp, push, h]
  | pop =>
    simp only [applyOp, pop]
    split
    · simp only [List.length_dropLast]
      omega
    · exact h
  | replace v sid =>
    simp only [applyOp, replace]
    split
    · exact h
    · rename_i hne
      have h1 : 1 ≤ n.stack.length := by
        have : n.stack ≠ [] := by simpa [List.isEmpty_iff] using hne
        exact List.length_pos.mpr this
      simp only [push, List.length_append, List.length_dropLast, List.length_singleton]
      omega
  | clear_and_push v sid => simp [applyOp, clear_and_push, push]

theorem Navigator.foldl_balanced {V : Type} (ops : List (NavOp V)) :
    ∀ n : Navigator V, n.stack.length = n.history.length →
      (ops.foldl Navigator.applyOp n).stack.length =
        (ops.foldl Navigator.applyOp n).history.length := by
  induction ops with
  | nil => intro n h; simpa using h
  | cons op rest ih =>
    intro n h
    simpa using ih (n.applyOp op) (n.applyOp_balanced op h)

/-- Claim C1: for every sequence of `push`, `pop`, `replace`,
`clear_and_push` applied to a navigator created by `Navigator::new`, the
invariant `stack.len() == history.len()` holds after every operation
(i.e. after every prefix of the sequence). -/
theorem navigator_stack_history_balanced {V : Type} (ops : List (NavOp V)) (i : Nat) :
    (Navigator.runOps (ops.take i)).stack.length =
      (Navigator.runOps (ops.take i)).history.length :=
  Navigator.foldl_balanced (ops.take i) Navigator.new rfl

/-- Claim C2: `Navigator::pop` on a stack of length at most 1 returns
`false` and leaves stack and history unchanged; on a stack of length
greater than 1 it removes the top of both and returns `true`. In
particular the root screen, once pushed, is never popped. -/
theorem navigator_pop_spec {V : Type} (n : Navigator V) :
    (n.stack.length ≤ 1 → n.pop = (n, false)) ∧
    (1 < n.stack.length →
      n.pop = ({ stack := n.stack.dropLast, history := n.history.dropLast }, true)) := by
  constructor
  · intro h
    simp only [Navigator.pop]
    split
    · omega
    · rfl
  · intro h
    simp only [Navigator.pop]
    split
    · rfl
    · omega

/-- Witness for C2: a one-screen navigator is unchanged by `pop` and gets
`false`; a two-screen navigator loses its top and gets `true`. -/
theorem navigator_pop_spec_witness :
    Navigator.pop { stack := ["root"], history := ["root"] } =
      (({ stack := ["root"], history := ["root"] } : Navigator String), false) ∧
    Navigator.pop { stack := ["root", "detail"], history := ["root", "detail"] } =
      (({ stack := ["root"], history := ["root"] } : Navigator String), true) := by
  refine ⟨(navigator_pop_spec _).1 (by decide), ?_⟩
  have h := (navigator_pop_spec
    ({ stack := ["root", "detail"], history := ["root", "detail"] } : Navigator String)).2
    (by decide)
  simpa using h

/-- Claim C6: `Navigator::replace` on an empty stack returns `false` and
changes nothing; on a non-empty stack it removes the top of both vectors,
pushes the new screen and its id, returns `true`, and leaves the stack
length unchanged. -/
theorem navigator_replace_spec {V : Type} (n : Navigator V) (v : V) (sid : String) :
    (n.stack = [] → n.replace v sid = (n, false)) ∧
    (n.stack ≠ [] →
      n.replace v sid =
        ({ stack := n.stack.dropLast ++ [v],
           history := n.history.dropLast ++ [sid] }, true) ∧
      (n.replace v sid).1.stack.length = n.stack.length) := by
  constructor
  · intro h
    simp [Navigator.replace, h]
  · intro h
    have hne : n.stack.isEmpty = false := by
      simpa [List.isEmpty_iff] using h
    constructor
    · simp [Navigator.replace, hne, Navigator.push]
    · have hlen : 1 ≤ n.stack.length := by
        cases hs : n.stack with
        | nil => exact absurd hs h
        | cons a t => simp [hs]
      simp only [Navigator.replace, hne, Bool.false_eq_true, if_false,
        Navigator.push, List.length_append, List.length_dropLast, List.length_singleton]
      omega

/-- Witness for C6: replacing on an empty navigator is a no-op returning
`false`; replacing the top of a two-screen navigator swaps it, returns
`true`, and keeps the stack length at 2. -/
theorem navigator_replace_spec_witness :
    Navigator.replace (Navigator.new : Navigator String) "login" "login" =
      (Navigator.new, false) ∧
    Navigator.replace
        ({ stack := ["root", "old"], history := ["root", "old"] } : Navigator String)
        "fresh" "fresh" =
      (({ stack := ["root", "fresh"], history := ["root", "fresh"] } : Navigator String),
        true) := by
  refine ⟨(navigator_replace_spec Navigator.new "login" "login").1 rfl, ?_⟩
  have h := ((navigator_replace_spec
    ({ stack := ["root", "old"], history := ["root", "old"] } : Navigator String)
    "fresh" "fresh").2 (by decide)).1
  simpa using h

/-- Claim C7: `Navigator::clear_and_push`, from any state, yields a stack of
length 1 holding exactly the new screen and a history of length 1 holding
exactly the new screen's id. -/
theorem navigator_clear_and_push_spec {V : Type} (n : Navigator V) (v : V)
    (sid : String) :
    (n.clear_and_push v sid).stack = [v] ∧ (n.clear_and_push v sid).history = [sid] :=
  ⟨rfl, rfl⟩

/-- Claim C10: `ThemeMode::next` cycles with period exactly 3: three
applications are the identity, and one application never fixes its input. -/
theorem thememode_next_period (m : ThemeMode) :
    m.next.next.next = m ∧ m.next ≠ m := by
  cases m <;> exact ⟨rfl, by decide⟩

/-- Claim C9: `DbContext::parse` is total: every JSON value yields a
`DbContext`; whenever deserialization does not produce a `Local` or
`Remote` value (wrong tag, missing fields, wrong types, non-object input),
it returns `DbContext.Unknown` rather than propagating an error; whenever
deserialization succeeds, it returns that result. -/
theorem dbcontext_parse_total (v : Json) :
    ((∀ l, DbContext.from_value v ≠ some (DbContext.Local l)) →
      (∀ r, DbContext.from_value v ≠ some (DbContext.Remote r)) →
      DbContext.parse v = DbContext.Unknown) ∧
    (∀ d, DbContext.from_value v = some d → DbContext.parse v = d) := by
  constructor
  · intro hl hr
    unfold DbContext.parse
    cases hv : DbContext.from_value v with
    | none => rfl
    | some d =>
      cases d with
      | Local l => exact absurd hv (hl l)
      | Remote r => exact absurd hv (hr r)
      | Unknown => rfl
  · intro d hd
    unfold DbContext.parse
    rw [hd]
    rfl

/-- Witness for C9: a non-object value (deserialization error) parses to
`Unknown`, and an object with an unrecognized tag deserializes to the
`#[serde(other)]` variant, so it also parses to `Unknown`. -/
theorem dbcontext_parse_total_witness :
    DbContext.parse (Json.num 3) = DbContext.Unknown ∧
    DbContext.parse (Json.obj [("type", Json.str "mystery")]) = DbContext.Unknown := by
  constructor
  · exact (dbcontext_parse_total (Json.num 3)).1
      (fun l h => by simp [DbContext.from_value] at h)
      (fun r h => by simp [DbContext.from_value] at h)
  · exact (dbcontext_parse_total (Json.obj [("type", Json.str "mystery")])).2
      DbContext.Unknown (by decide)

/-- Claim C8: `DocumentParser::load_file` panics (aborting the process) for
every path whose file cannot be read or whose content is not valid JSON,
and returns the parsed vector of block values otherwise; it never returns
an error value. -/
theorem document_parser_load_file_spec
    (read_to_string : String → Option String)
    (from_str : String → Option (List Json)) (value : String) :
    (read_to_string value = none →
      DocumentParser.load_file read_to_string from_str value =
        .error "Failed to read demo.json") ∧
    (∀ c, read_to_string value = some c → from_str c = none →
      DocumentParser.load_file read_to_string from_str value =
        .error "Failed to parse JSON from demo.json") ∧
    (∀ c blocks, read_to_string value = some c → from_str c = some blocks →
      DocumentParser.load_file read_to_string from_str value = .ok blocks) := by
  refine ⟨?_, ?_, ?_⟩
  · intro h
    simp [DocumentParser.load_file, h]
  · intro c h1 h2
    simp [DocumentParser.load_file, h1, h2]
  · intro c blocks h1 h2
    simp [DocumentParser.load_file, h1, h2]

/-- Witness for C8: an unreadable file aborts with the read panic, a
readable file with unparsable content aborts with the parse panic, and a
readable, parsable file yields the parsed blocks. -/
theorem document_parser_load_file_spec_witness :
    DocumentParser.load_file (fun _ => none) (fun _ => none) "demo.json" =
      .error "Failed to read demo.json" ∧
    DocumentParser.load_file (fun _ => some "oops") (fun _ => none) "demo.json" =
      .error "Failed to parse JSON from demo.json" ∧
    DocumentParser.load_file (fun _ => some "[]") (fun _ => some []) "demo.json" =
      .ok [] := by
  refine ⟨?_, ?_, ?_⟩
  · exact (document_parser_load_file_spec (fun _ => none) (fun _ => none)
      "demo.json").1 rfl
  · exact (document_parser_load_file_spec (fun _ => some "oops") (fun _ => none)
      "demo.json").2.1 "oops" rfl rfl
  · exact (document_parser_load_file_spec (fun _ => some "[]") (fun _ => some [])
      "demo.json").2.2 "[]" [] rfl rfl

theorem Route.renderList_cases (m : String → String → Bool) (pathname : String) :
    ∀ (cs : List Route) (bn : String),
      Route.renderList m pathname cs bn = [] ∨
      ∃ c, c ∈ cs ∧ Route.in_pattern m c bn pathname = true ∧
        Route.renderList m pathname cs bn = Route.render m pathname c bn := by
  intro cs
  induction cs with
  | nil =>
    intro bn
    exact Or.inl rfl
  | cons c rest ih =>
    intro bn
    by_cases hc : Route.in_pattern m c bn pathname = true
    · exact Or.inr ⟨c, List.mem_cons_self c rest, hc, by simp [Route.renderList, hc]⟩
    · have hrw : Route.renderList m pathname (c :: rest) bn =
          Route.renderList m pathname rest bn := by
        simp [Route.renderList, hc]
      rcases ih bn with h | ⟨c2, hmem, hpat, heq⟩
      · exact Or.inl (hrw.trans h)
      · exact Or.inr ⟨c2, List.mem_cons_of_mem c hmem, hpat, hrw.trans heq⟩

theorem Route.render_matched (m : String → String → Bool) (pathname : String) :
    ∀ (r : Route) (bn : String),
      Route.in_pattern m r bn pathname = true →
      ∀ f, f ∈ Route.render m pathname r bn →
        ∃ d bnd, Route.Sub d r ∧ d.element = some f ∧
          Route.in_pattern m d bnd pathname = true := by
  suffices h : ∀ (n : Nat) (r : Route), sizeOf r ≤ n → ∀ (bn : String),
      Route.in_pattern m r bn pathname = true →
      ∀ f, f ∈ Route.render m pathname r bn →
        ∃ d bnd, Route.Sub d r ∧ d.element = some f ∧
          Route.in_pattern m d bnd pathname = true by
    intro r bn hpat f hf
    exact h (sizeOf r) r le_rfl bn hpat f hf
  intro n
  induction n with
  | zero =>
    intro r hr
    exfalso
    cases r
    simp at hr
  | succ n ih =>
    intro r hr bn hpat f hf
    cases r with
    | mk rb rp rel rrts rly =>
      cases rel with
      | some g =>
        have hfg : f = g := by
          simpa [Route.render] using hf
        refine ⟨⟨rb, rp, some g, rrts, rly⟩, bn, Route.Sub.refl _, ?_, hpat⟩
        rw [hfg]
      | none =>
        cases rly with
        | none =>
          simp [Route.render] at hf
        | some ly =>
          simp only [Route.render] at hf
          rcases Route.renderList_cases m pathname rrts (Route.joinPath rp bn) with
            hnil | ⟨c, hmem, hpat2, heq⟩
          · rw [hnil] at hf
            simp at hf
          · rw [heq] at hf
            have hsz : sizeOf c ≤ n := by
              have h1 := List.sizeOf_lt_of_mem hmem
              simp at hr
              omega
            obtain ⟨d, bnd, hsub, helem, hmatch⟩ :=
              ih c hsz (Route.joinPath rp bn) hpat2 f hf
            exact ⟨d, bnd, Route.Sub.step hmem hsub, helem, hmatch⟩

theorem Route.render_length (m : String → String → Bool) (pathname : String) :
    ∀ (r : Route) (bn : String), (Route.render m pathname r bn).length ≤ 1 := by
  suffices h : ∀ (n : Nat) (r : Route), sizeOf r ≤ n → ∀ (bn : String),
      (Route.render m pathname r bn).length ≤ 1 by
    intro r bn
    exact h (sizeOf r) r le_rfl bn
  intro n
  induction n with
  | zero =>
    intro r hr
    exfalso
    cases r
    simp at hr
  | succ n ih =>
    intro r hr bn
    cases r with
    | mk rb rp rel rrts rly =>
      cases rel with
      | some g => simp [Route.render]
      | none =>
        cases rly with
        | none => simp [Route.render]
        | some ly =>
          simp only [Route.render]
          rcases Route.renderList_cases m pathname rrts (Route.joinPath rp bn) with
            hnil | ⟨c, hmem, _, heq⟩
          · rw [hnil]
            simp
          · rw [heq]
            have hsz : sizeOf c ≤ n := by
              have h1 := List.sizeOf_lt_of_mem hmem
              simp at hr
              omega
            exact ih c hsz (Route.joinPath rp bn)

/-- Claim C3: element factories are lazy. Constructing a route tree is pure
in the embedding, mirroring the Rust builders, which box the closures
without calling them; a render pass of `Routes` invokes at most one element
factory, and every factory it invokes belongs to a route of the tree that
is matched for the current pathname of the global `RouterState` (the
route's own pattern map, under the basename it is rendered with, resolves
the pathname). Quantified over every matchit pattern matcher `m`. -/
theorem routes_render_lazy (m : String → String → Bool) (pathname : String)
    (rs : Routes) :
    (Routes.render m pathname rs).length ≤ 1 ∧
    ∀ f, f ∈ Routes.render m pathname rs →
      ∃ r0 d bnd, r0 ∈ rs.routes ∧ Route.Sub d r0 ∧ d.element = some f ∧
        Route.in_pattern m d bnd pathname = true := by
  constructor
  · unfold Routes.render
    split
    · rcases Route.renderList_cases m pathname rs.routes rs.basename with
        hnil | ⟨c, _, _, heq⟩
      · rw [hnil]
        simp
      · rw [heq]
        exact Route.render_length m pathname c rs.basename
    · simp
  · intro f hf
    unfold Routes.render at hf
    split at hf
    · rcases Route.renderList_cases m pathname rs.routes rs.basename with
        hnil | ⟨c, hmem, hpat, heq⟩
      · rw [hnil] at hf
        simp at hf
      · rw [heq] at hf
        obtain ⟨d, bnd, hsub, helem, hmatch⟩ :=
          Route.render_matched m pathname c rs.basename hpat f hf
        exact ⟨c, d, bnd, hmem, hsub, helem, hmatch⟩
    · simp at hf

/-- Witness for C3: a two-route tree (an index route with factory 0 and an
`about` route with factory 1) rendered at pathname `/about` under exact
string matching invokes at most one factory, and the invoked factory 1
belongs to a route matched for `/about`. -/
theorem routes_render_lazy_witness :
    (Routes.render (fun p q => p == q) "/about"
        (Routes.child (Routes.child Routes.new ⟨"", some "", some 0, [], none⟩)
          ⟨"", some "about", some 1, [], none⟩)).length ≤ 1 ∧
    (∃ r0 d bnd,
      r0 ∈ (Routes.child (Routes.child Routes.new ⟨"", some "", some 0, [], none⟩)
          ⟨"", some "about", some 1, [], none⟩).routes ∧
      Route.Sub d r0 ∧ d.element = some 1 ∧
      Route.in_pattern (fun p q => p == q) d bnd "/about" = true) := by
  have h := routes_render_lazy (fun p q => p == q) "/about"
    (Routes.child (Routes.child Routes.new ⟨"", some "", some 0, [], none⟩)
      ⟨"", some "about", some 1, [], none⟩)
  exact ⟨h.1, h.2 1 (by decide)⟩

/-- Claim C4: in a debug build a route can never acquire both an element
and a layout, in either order: composing `element()` then `layout()` or
`layout()` then `element()` always panics, because `element()` panics when
a layout is already set and `layout()` panics when an element is already
set. -/
theorem route_element_layout_conflict (r : Route) (f l : Nat) :
    ((r.withElement true f).bind (fun r2 => r2.withLayout true l)).isOk = false ∧
    ((r.withLayout true l).bind (fun r2 => r2.withElement true f)).isOk = false ∧
    (r.layout.isSome = true →
      r.withElement true f =
        .error "Route element and layout cannot be set at the same time") ∧
    (r.element.isSome = true →
      r.withLayout true l =
        .error "Route element and layout cannot be set at the same time") := by
  refine ⟨?_, ?_, ?_, ?_⟩
  · by_cases hl : r.layout.isSome = true
    · simp [Route.withElement, hl, Except.bind, Except.isOk, Except.toBool]
    · simp [Route.withElement, hl, Except.bind, Route.withLayout, Except.isOk,
        Except.toBool]
  · by_cases he : r.element.isSome = true
    · simp [Route.withLayout, he, Except.bind, Except.isOk, Except.toBool]
    · simp [Route.withLayout, he, Except.bind, Route.withElement, Except.isOk,
        Except.toBool]
  · intro hl
    simp [Route.withElement, hl]
  · intro he
    simp [Route.withLayout, he]

/-- Witness for C4: on a route that already has a layout, `element()`
panics with the shared message; on a route that already has an element,
`layout()` panics likewise. -/
theorem route_element_layout_conflict_witness :
    Route.withElement ⟨"", none, none, [], some 7⟩ true 3 =
      .error "Route element and layout cannot be set at the same time" ∧
    Route.withLayout ⟨"", none, some 3, [], none⟩ true 7 =
      .error "Route element and layout cannot be set at the same time" :=
  ⟨(route_element_layout_conflict ⟨"", none, none, [], some 7⟩ 3 7).2.2.1 rfl,
   (route_element_layout_conflict ⟨"", none, some 3, [], none⟩ 3 7).2.2.2 rfl⟩

/-- Counterexample to claim C5 as stated: in a debug build, calling
`index()` first and `path("about")` second on a fresh route completes
without any panic, even though afterwards the route both went through
`index()` and carries an explicit path; so a route with both does not
panic regardless of order. Only `index()` checks for a pre-existing path;
`path()` never panics and silently overwrites. -/
theorem route_index_then_path_no_panic :
    (Route.new.index true).map (fun r => r.withPath "about") =
      Except.ok ⟨"", some "about", none, [], none⟩ := rfl

/-- Claim C5 (amended): in debug builds the conflict between `index()` and
an explicit `path()` is only caught in one order: `index()` panics exactly
when a path has already been set, and on a pathless route it succeeds,
installing the empty path; `path(p)` never panics and always overwrites the
stored path with `p` (including the empty path installed by `index()`). -/
theorem route_index_path_order (r : Route) (p : String) :
    (r.path.isSome = true →
      r.index true = .error "Route index and path cannot be set at the same time") ∧
    (r.path = none → r.index true = .ok (r.withPath "")) ∧
    (r.withPath p).path = some p := by
  refine ⟨?_, ?_, rfl⟩
  · intro h
    simp [Route.index, h]
  · intro h
    simp [Route.index, h]

/-- Witness for C5 (amended): `index()` after `path("about")` panics, while
`index()` on a fresh route succeeds with the empty path, and a later
`path("about")` overwrites it. -/
theorem route_index_path_order_witness :
    (Route.new.withPath "about").index true =
      .error "Route index and path cannot be set at the same time" ∧
    Route.new.index true = .ok (Route.new.withPath "") ∧
    (Route.new.withPath "about").path = some "about" :=
  ⟨(route_index_path_order (Route.new.withPath "about") "about").1 rfl,
   (route_index_path_order Route.new "about").2.1 rfl,
   (route_index_path_order Route.new "about").2.2⟩

end Remindr
